import Mathlib

/-!
Verification of the AiTradingBot signal-scoring core against its design
description.  The Python modules under src/ are shallowly embedded below:
numpy / pandas float arithmetic is modelled over the rationals, per-bar
vectorized expressions become scalar functions of the bar values involved,
whole-series operations (EMA, rolling mean) become list functions whose
undefined (NaN) entries are modelled by `Option`, and fallible steps become
`Option`-valued inputs.
-/

/-- numpy clip: np.clip(x, lo, hi) = min(max(x, lo), hi). -/
def npClip (x lo hi : ℚ) : ℚ := min (max x lo) hi

/-- Python round(q, 2): nearest multiple of 1/100 (ties handled by the
ambient round; no claim depends on the tie direction). -/
def round2 (q : ℚ) : ℚ := ((round (100 * q) : ℤ) : ℚ) / 100

/-- Structure tag produced by LiquidityScore.calculate. -/
inductive StructType
  | SUPPORT_LOW
  | RESISTANCE_HIGH
deriving DecidableEq, Repr

namespace LiquidityScore

/-- One arm of the np.where chain of src/src/modules/market_data.py lines
30-34: np.where(dist <= 0, 1.0, np.where(dist <= threshold,
1.0 - dist/threshold, 0.0)). -/
def scoreSide (threshold d : ℚ) : ℚ :=
  if d ≤ 0 then 1 else if d ≤ threshold then 1 - d / threshold else 0

/-- Per-bar core of LiquidityScore.calculate (market_data.py lines 17-37),
with the rolling swing levels recent_low / recent_high of the bar passed in
as values (the claims quantify over bars where they are defined).  The
default proximity_threshold is 0.5, as instantiated by AlphaModel. -/
def calculate (threshold low high recent_low recent_high atr : ℚ) :
    ℚ × StructType :=
  let dist_low := (low - recent_low) / atr
  let dist_high := (recent_high - high) / atr
  let score_low := scoreSide threshold dist_low
  let score_high := scoreSide threshold dist_high
  (max score_low score_high,
    if score_low > score_high then StructType.SUPPORT_LOW
    else StructType.RESISTANCE_HIGH)

end LiquidityScore

/-- EMA recurrence e_i = a * x_i + (1 - a) * e_(i-1). -/
def emaRec (a seed : ℚ) : List ℚ → List ℚ
  | [] => []
  | x :: rest =>
      let e := a * x + (1 - a) * seed
      e :: emaRec a e rest

/-- Model of pandas_ta.ema(close, length): returns None when the series is
shorter than the length; otherwise the first length-1 entries are undefined
(NaN), the entry at index length-1 is the SMA seed of the first length bars,
and later entries follow the EMA recurrence with a = 2/(length+1). -/
def taEma (length : ℕ) (xs : List ℚ) : Option (List (Option ℚ)) :=
  if xs.length < length then none
  else
    let seed := (xs.take length).sum / (length : ℚ)
    some (List.replicate (length - 1) none ++ some seed ::
      (emaRec (2 / ((length : ℚ) + 1)) seed (xs.drop length)).map some)

/-- Model of pandas Series.rolling(w).mean(): entry i is undefined (NaN)
until the window holds w observations. -/
def rollingMean (w : ℕ) (xs : List ℚ) : List (Option ℚ) :=
  (List.range xs.length).map fun i =>
    if i + 1 < w then none
    else some (((xs.drop (i + 1 - w)).take w).sum / (w : ℚ))

namespace FairValueScore

/-- Per-bar score of FairValueScore.calculate (market_data.py lines 52-55):
np.clip(abs((close - ema) / atr) / 2.5, 0.0, 1.0). -/
def scoreBar (close fv atr : ℚ) : ℚ := npClip (|(close - fv) / atr| / (5/2)) 0 1

/-- FairValueScore.calculate (market_data.py lines 47-55), ema_period = 50:
returns np.zeros_like(close_series) when ta.ema returns None; otherwise the
NaN head of the EMA propagates into the score. -/
def calculate (closeS atrS : List ℚ) : List (Option ℚ) :=
  match taEma 50 closeS with
  | none => closeS.map fun _ => some 0
  | some fv =>
      List.zipWith (fun p a =>
        match p.2 with
        | none => none
        | some f => some (scoreBar p.1 f a)) (closeS.zip fv) atrS

end FairValueScore

namespace VolatilityScore

/-- Per-bar score of VolatilityScore.calculate (market_data.py lines 66-71):
np.clip(atr / atr_avg, 0.0, 1.0). -/
def scoreBar (atr avg : ℚ) : ℚ := npClip (atr / avg) 0 1

/-- VolatilityScore.calculate (market_data.py lines 66-71), avg_period = 50.
There is no insufficiency guard in the source: an undefined (NaN) rolling
average propagates into the returned score. -/
def calculate (atrS : List ℚ) : List (Option ℚ) :=
  List.zipWith (fun a oa =>
    match oa with
    | none => none
    | some m => some (scoreBar a m)) atrS (rollingMean 50 atrS)

end VolatilityScore

namespace MomentumScore

/-- Per-bar score of MomentumScore.calculate (market_data.py lines 94-95):
np.clip(abs(fast_ema - slow_ema) / close * 1000, 0, 1.0). -/
def scoreBar (fast slow close : ℚ) : ℚ := npClip (|fast - slow| / close * 1000) 0 1

/-- MomentumScore.calculate (market_data.py lines 82-99), fast = 9,
slow = 21: returns np.zeros_like(close_series) when either EMA is None. -/
def calculate (closeS : List ℚ) : List (Option ℚ) :=
  match taEma 9 closeS, taEma 21 closeS with
  | some fe, some se =>
      List.zipWith (fun p c =>
        match p.1, p.2 with
        | some f, some s => some (scoreBar f s c)
        | _, _ => none) (fe.zip se) closeS
  | _, _ => closeS.map fun _ => some 0

end MomentumScore

/-- The weight record assigned by AlphaStack.__init__ (the Lean keyword
forces the W-suffixed field names for the dict keys structure / reversion /
volatility / momentum). -/
structure Weights where
  structureW : ℚ
  reversionW : ℚ
  volatilityW : ℚ
  momentumW : ℚ
deriving DecidableEq, Repr

/-- Sum of the four aggregator weights. -/
def weightSum (w : Weights) : ℚ :=
  w.structureW + w.reversionW + w.volatilityW + w.momentumW

namespace AlphaStack

/-- AlphaStack.__init__ (market_data.py lines 105-111): it unconditionally
assigns this fixed weight dict; the constructor contains no validation of
the weight sum and no failure path. -/
def initWeights : Weights := ⟨0.35, 0.30, 0.20, 0.15⟩

/-- AlphaStack.get_total_alpha (market_data.py lines 113-120), with
self.weights passed explicitly. -/
def get_total_alpha (w : Weights) (s r v m : ℚ) : ℚ :=
  npClip (w.structureW * s + w.reversionW * r + w.volatilityW * v +
    w.momentumW * m) 0 1

end AlphaStack

/-- Modelled from the spec: a constructor that rejects any weight set whose
sum is not 1.0, as the design description demands of startup validation.
It exists only for comparison; the source constructor performs no check. -/
def init_checked_spec (w : Weights) : Option Weights :=
  if weightSum w = 1 then some w else none

/-- Status tier reported by AlphaModel.get_market_state. -/
inductive Status
  | WAIT
  | REVIEW_REQUIRED
  | HIGH_CONVICTION
deriving DecidableEq, Repr

namespace AlphaModel

/-- Status tiering of AlphaModel.get_market_state (market_data.py lines
174-177): status starts at WAIT and is reassigned by two sequential if
statements over the reported m5 alpha. -/
def determineStatus (a : ℚ) : Status :=
  let s0 : Status := .WAIT
  let s1 : Status := if a > 0.60 then .REVIEW_REQUIRED else s0
  let s2 : Status := if a > 0.85 then .HIGH_CONVICTION else s1
  s2

end AlphaModel

/-- Session open/closed state of SessionManager. -/
inductive SessionStatus
  | OPEN
  | CLOSED
deriving DecidableEq, Repr

/-- Directional bias / trend tag. -/
inductive Bias
  | NEUTRAL
  | BULLISH
  | BEARISH
deriving DecidableEq, Repr

/-- The key_levels dict of SessionManager. -/
structure KeyLevels where
  support : ℚ
  resistance : ℚ
deriving DecidableEq, Repr

/-- The mutable state owned by SessionManager (session_manager.py
lines 5-9). -/
structure SessionState where
  current_session : SessionStatus
  strategic_bias : Bias
  key_levels : KeyLevels
deriving DecidableEq, Repr

namespace SessionManager

/-- SessionManager.__init__ (session_manager.py lines 5-9). -/
def initState : SessionState := ⟨.CLOSED, .NEUTRAL, ⟨0, 0⟩⟩

/-- SessionManager.update_session_status (session_manager.py lines 11-22),
with the current UTC hour passed explicitly: inside the 07:00-21:00 window
the bias resets to NEUTRAL only when the prior status was CLOSED, and the
status becomes OPEN; outside the window the status becomes CLOSED and the
bias resets to NEUTRAL. -/
def update_session_status (hour : ℕ) (st : SessionState) : SessionState :=
  if 7 ≤ hour ∧ hour < 21 then
    { st with
      strategic_bias :=
        if st.current_session = .CLOSED then .NEUTRAL else st.strategic_bias,
      current_session := .OPEN }
  else
    { st with current_session := .CLOSED, strategic_bias := .NEUTRAL }

/-- SessionManager.update_strategic_view (session_manager.py lines 24-38):
bias and key levels are overwritten only when both trend tags agree on a
non-NEUTRAL direction; every other case leaves the state unchanged (the
elif branch of the source is a pass statement). -/
def update_strategic_view (daily_trend h4_trend : Bias)
    (key_structure : KeyLevels) (st : SessionState) : SessionState :=
  if daily_trend = h4_trend ∧ daily_trend ≠ .NEUTRAL then
    { st with strategic_bias := daily_trend, key_levels := key_structure }
  else
    st

end SessionManager

/-- Trade action decided by the brain. -/
inductive TradeAction
  | BUY
  | SELL
  | HOLD
deriving DecidableEq, Repr

/-- Management action field of a decision. -/
inductive MgmtAction
  | NONE
  | CLOSE_ALL_XAUUSD
  | CLOSE_ALL_GBPUSD
deriving DecidableEq, Repr

/-- The claim-relevant fields of the decision dict returned by
GeminiBrain.analyze_market. -/
structure Decision where
  action : TradeAction
  management_action : MgmtAction
deriving DecidableEq, Repr

namespace GeminiBrain

/-- The dict returned from the except branch of analyze_market
(brain.py line 94). -/
def fallbackDecision : Decision := ⟨.HOLD, .NONE⟩

/-- GeminiBrain.analyze_market (brain.py lines 83-94): the two fallible
steps inside the try block are the model call (generate_content) and the
JSON parse of its text; both are modelled as Option-valued inputs.  Any
failure of either lands in the except branch, whose logging helpers catch
their own errors, and the fallback dict is returned; no exception escapes. -/
def analyze_market (response : Option String)
    (parse : String → Option Decision) : Decision :=
  match response with
  | none => fallbackDecision
  | some t =>
      match parse t with
      | none => fallbackDecision
      | some d => d

end GeminiBrain

namespace TradingBot

/-- Per-symbol execution gate of TradingBot.run_cycle (main.py lines
107-171): returns true exactly when control reaches the
broker.execute_trade call.  The guards modelled are, in source order, the
closed-session early return, the paused early return, the spread limit, the
low-alpha skip, the non-BUY/SELL branch, and the two bias blocks of lines
161-167. -/
def executesTrade (sessionClosed paused : Bool) (spread max_spread : ℚ)
    (alphaScore : ℚ) (d : Decision) (locked_bias : Bias) : Bool :=
  if sessionClosed then false
  else if paused then false
  else if spread > max_spread then false
  else if alphaScore < 0.45 then false
  else
    match d.action with
    | .HOLD => false
    | .BUY => decide (locked_bias ≠ .BEARISH)
    | .SELL => decide (locked_bias ≠ .BULLISH)

end TradingBot

namespace RiskScaler

/-- Modelled from the spec: the base risk percentage 0.50. -/
def base_risk : ℚ := 1/2

/-- Modelled from the spec: the RiskScaler component of the design (risk
section 4.4) has no counterpart under src/ (no source function computes a
clamped reference-ATR / current-ATR scaling).  Following the words of the
spec: scaling_factor = clamp(reference_ATR / current_ATR, 0.5, 2.0),
risk_pct = round(base_risk * scaling_factor, 2), and current_ATR ≤ 0
returns base_risk unscaled. -/
def risk_pct (reference_ATR current_ATR : ℚ) : ℚ :=
  if current_ATR ≤ 0 then base_risk
  else round2 (base_risk * npClip (reference_ATR / current_ATR) (1/2) 2)

end RiskScaler

/-! ## Helper lemmas -/

theorem npClip01_nonneg (x : ℚ) : 0 ≤ npClip x 0 1 :=
  le_min (le_max_right x 0) zero_le_one

theorem npClip01_le_one (x : ℚ) : npClip x 0 1 ≤ 1 :=
  min_le_right _ _

theorem scoreSide_mem (t d : ℚ) :
    0 ≤ LiquidityScore.scoreSide t d ∧ LiquidityScore.scoreSide t d ≤ 1 := by
  unfold LiquidityScore.scoreSide
  split_ifs with h1 h2
  · exact ⟨zero_le_one, le_refl 1⟩
  · have hd : 0 < d := not_le.mp h1
    have ht : 0 < t := lt_of_lt_of_le hd h2
    have hq1 : d / t ≤ 1 := (div_le_one ht).mpr h2
    have hq0 : 0 < d / t := div_pos hd ht
    constructor <;> linarith
  · exact ⟨le_refl 0, zero_le_one⟩

theorem round2_between {a b : ℤ} {x : ℚ} (h1 : (a : ℚ) ≤ 100 * x)
    (h2 : 100 * x ≤ (b : ℚ)) :
    (a : ℚ) / 100 ≤ round2 x ∧ round2 x ≤ (b : ℚ) / 100 := by
  have ha : (a : ℚ) ≤ ((round (100 * x) : ℤ) : ℚ) := by
    have hle : a ≤ round (100 * x) := by
      rw [round_eq]
      refine Int.le_floor.mpr ?_
      linarith
    exact_mod_cast hle
  have hb : ((round (100 * x) : ℤ) : ℚ) ≤ (b : ℚ) := by
    have hle : round (100 * x) ≤ b := by
      rw [round_eq]
      have hlt : (100 : ℚ) * x + 1 / 2 < ((b + 1 : ℤ) : ℚ) := by
        push_cast
        linarith
      have := Int.floor_lt.mpr hlt
      omega
    exact_mod_cast hle
  unfold round2
  constructor <;> linarith

theorem rollingMean_short (w : ℕ) (xs : List ℚ) (h : xs.length < w) :
    rollingMean w xs = List.replicate xs.length none := by
  rw [List.eq_replicate_iff]
  constructor
  · simp [rollingMean]
  · intro b hb
    simp only [rollingMean, List.mem_map, List.mem_range] at hb
    obtain ⟨i, hi, hfi⟩ := hb
    rw [if_pos (by omega)] at hfi
    exact hfi.symm

theorem zipWith_none_right (f : ℚ → Option ℚ → Option ℚ)
    (hf : ∀ a, f a none = none) (xs : List ℚ) :
    List.zipWith f xs (List.replicate xs.length none) = xs.map fun _ => none := by
  induction xs with
  | nil => rfl
  | cons x t ih =>
      simp only [List.length_cons, List.replicate_succ, List.zipWith_cons_cons,
        List.map_cons, hf x, ih]

/-! ## Claim theorems -/

/-- C1: every feature score (structure, reversion, volatility, momentum)
lies in the closed interval [0,1] whenever its bar inputs are defined and
the denominators of its formula are positive; and
AlphaStack.get_total_alpha, with the weights assigned by the constructor,
maps any four scores in [0,1] to a value in [0,1]. -/
theorem C1_feature_scores_unit_interval
    (t low high rl rh atr close fv atrAvg fast slow s r v m : ℚ)
    (hatr : 0 < atr) (havg : 0 < atrAvg) (hclose : 0 < close) :
    (0 ≤ (LiquidityScore.calculate t low high rl rh atr).1 ∧
      (LiquidityScore.calculate t low high rl rh atr).1 ≤ 1)
    ∧ (0 ≤ FairValueScore.scoreBar close fv atr ∧
        FairValueScore.scoreBar close fv atr ≤ 1)
    ∧ (0 ≤ VolatilityScore.scoreBar atr atrAvg ∧
        VolatilityScore.scoreBar atr atrAvg ≤ 1)
    ∧ (0 ≤ MomentumScore.scoreBar fast slow close ∧
        MomentumScore.scoreBar fast slow close ≤ 1)
    ∧ (0 ≤ s → s ≤ 1 → 0 ≤ r → r ≤ 1 → 0 ≤ v → v ≤ 1 → 0 ≤ m → m ≤ 1 →
        0 ≤ AlphaStack.get_total_alpha AlphaStack.initWeights s r v m ∧
          AlphaStack.get_total_alpha AlphaStack.initWeights s r v m ≤ 1) := by
  have hl := scoreSide_mem t ((low - rl) / atr)
  have hh := scoreSide_mem t ((rh - high) / atr)
  refine ⟨⟨?_, ?_⟩, ⟨npClip01_nonneg _, npClip01_le_one _⟩,
    ⟨npClip01_nonneg _, npClip01_le_one _⟩,
    ⟨npClip01_nonneg _, npClip01_le_one _⟩,
    fun _ _ _ _ _ _ _ _ => ⟨npClip01_nonneg _, npClip01_le_one _⟩⟩
  · exact le_max_of_le_left hl.1
  · exact max_le hl.2 hh.2

/-- C1 witness: the theorem applied at a concrete bar and four concrete
scores in [0,1]. -/
theorem C1_feature_scores_witness :
    0 ≤ AlphaStack.get_total_alpha AlphaStack.initWeights (1/2) (1/2) (1/2) (1/2)
    ∧ AlphaStack.get_total_alpha AlphaStack.initWeights (1/2) (1/2) (1/2) (1/2) ≤ 1 :=
  (C1_feature_scores_unit_interval 1 1 1 1 1 1 1 1 1 1 1 (1/2) (1/2) (1/2) (1/2)
      (by norm_num) (by norm_num) (by norm_num)).2.2.2.2
    (by norm_num) (by norm_num) (by norm_num) (by norm_num)
    (by norm_num) (by norm_num) (by norm_num) (by norm_num)

/-- C2: the status tiering of get_market_state uses strict comparisons:
alpha above 0.85 gives HIGH_CONVICTION, above 0.60 and at most 0.85 gives
REVIEW_REQUIRED, otherwise WAIT; at exactly 0.85 the status is
REVIEW_REQUIRED and at 0.851 it is HIGH_CONVICTION. -/
theorem C2_status_tiering (a : ℚ) :
    (a > 0.85 → AlphaModel.determineStatus a = .HIGH_CONVICTION)
    ∧ (a > 0.60 → a ≤ 0.85 → AlphaModel.determineStatus a = .REVIEW_REQUIRED)
    ∧ (a ≤ 0.60 → AlphaModel.determineStatus a = .WAIT)
    ∧ AlphaModel.determineStatus 0.85 = .REVIEW_REQUIRED
    ∧ AlphaModel.determineStatus 0.851 = .HIGH_CONVICTION := by
  refine ⟨fun h => ?_, fun h1 h2 => ?_, fun h => ?_, ?_, ?_⟩
  · simp [AlphaModel.determineStatus, h]
  · have h3 : ¬ (a > 0.85) := not_lt.mpr h2
    simp [AlphaModel.determineStatus, h1, h3]
  · have h2 : ¬ (a > 0.60) := not_lt.mpr h
    have h3 : ¬ (a > 0.85) := not_lt.mpr (le_trans h (by norm_num))
    simp [AlphaModel.determineStatus, h2, h3]
  · norm_num [AlphaModel.determineStatus]
  · norm_num [AlphaModel.determineStatus]

/-- C2 witness: the theorem applied at the concrete alpha 0.9. -/
theorem C2_status_tiering_witness :
    AlphaModel.determineStatus 0.9 = .HIGH_CONVICTION :=
  (C2_status_tiering 0.9).1 (by norm_num)

/-- C3 counterexample: the source performs no weight validation.  The
weight set (1,1,1,1) sums to 4, not 1, yet the aggregator computes with it
as usual (the result merely clamped), while the constructor modelled from
the words of the spec would have rejected it.  No rejection of a bad weight
sum exists anywhere in AlphaStack. -/
theorem C3_no_weight_validation_counterexample :
    weightSum ⟨1, 1, 1, 1⟩ ≠ 1
    ∧ AlphaStack.get_total_alpha ⟨1, 1, 1, 1⟩ (1/2) (1/2) (1/2) (1/2) = 1
    ∧ init_checked_spec ⟨1, 1, 1, 1⟩ = none := by
  refine ⟨by norm_num [weightSum], ?_, ?_⟩
  · norm_num [AlphaStack.get_total_alpha, npClip]
  · norm_num [init_checked_spec, weightSum]

/-- C3 amended: the four fixed weights assigned by AlphaStack do sum to
exactly 1.0, but nothing rejects a bad weight set: the constructor
unconditionally assigns its dict, and get_total_alpha computes a clamped
value in [0,1] for every weight set whatsoever, so a weight set not summing
to 1.0 is silently tolerated rather than rejected. -/
theorem C3_weights_sum_one_unchecked :
    weightSum AlphaStack.initWeights = 1
    ∧ ∀ (w : Weights) (s r v m : ℚ),
        0 ≤ AlphaStack.get_total_alpha w s r v m ∧
          AlphaStack.get_total_alpha w s r v m ≤ 1 := by
  refine ⟨by norm_num [weightSum, AlphaStack.initWeights], ?_⟩
  intro w s r v m
  exact ⟨npClip01_nonneg _, npClip01_le_one _⟩

/-- C4: with a positive ATR, the structure score is the elementwise maximum
of the low-side and high-side scores; each side score follows the piecewise
policy (distance at most 0 gives 1.0, distance in (0, 0.5] gives
1 - distance/0.5, distance above 0.5 gives 0.0); the tag is SUPPORT_LOW
exactly when the low-side score strictly exceeds the high-side score, so a
tie yields RESISTANCE_HIGH. -/
theorem C4_structure_score_policy (low high rl rh atr : ℚ) (hatr : 0 < atr) :
    (LiquidityScore.calculate (1/2) low high rl rh atr).1
      = max (LiquidityScore.scoreSide (1/2) ((low - rl) / atr))
          (LiquidityScore.scoreSide (1/2) ((rh - high) / atr))
    ∧ (∀ d : ℚ,
        (d ≤ 0 → LiquidityScore.scoreSide (1/2) d = 1)
        ∧ (0 < d → d ≤ 1/2 → LiquidityScore.scoreSide (1/2) d = 1 - d / (1/2))
        ∧ (1/2 < d → LiquidityScore.scoreSide (1/2) d = 0))
    ∧ ((LiquidityScore.calculate (1/2) low high rl rh atr).2
          = StructType.SUPPORT_LOW
        ↔ LiquidityScore.scoreSide (1/2) ((low - rl) / atr)
            > LiquidityScore.scoreSide (1/2) ((rh - high) / atr))
    ∧ (LiquidityScore.scoreSide (1/2) ((low - rl) / atr)
          = LiquidityScore.scoreSide (1/2) ((rh - high) / atr)
        → (LiquidityScore.calculate (1/2) low high rl rh atr).2
            = StructType.RESISTANCE_HIGH) := by
  have htag : (LiquidityScore.calculate (1/2) low high rl rh atr).2
      = if LiquidityScore.scoreSide (1/2) ((low - rl) / atr)
            > LiquidityScore.scoreSide (1/2) ((rh - high) / atr)
        then StructType.SUPPORT_LOW else StructType.RESISTANCE_HIGH := rfl
  refine ⟨rfl, fun d => ⟨fun h => ?_, fun h0 h1 => ?_, fun h => ?_⟩, ?_, fun he => ?_⟩
  · rw [LiquidityScore.scoreSide, if_pos h]
  · rw [LiquidityScore.scoreSide, if_neg (not_le.mpr h0), if_pos h1]
  · have h0 : ¬ d ≤ 0 := not_le.mpr (lt_trans (by norm_num) h)
    rw [LiquidityScore.scoreSide, if_neg h0, if_neg (not_le.mpr h)]
  · rw [htag]
    by_cases h : LiquidityScore.scoreSide (1/2) ((low - rl) / atr)
        > LiquidityScore.scoreSide (1/2) ((rh - high) / atr) <;> simp [h]
  · rw [htag, if_neg]
    rw [he]
    exact lt_irrefl _

/-- C4 witness: a concrete bar whose low touches the swing low produces
score 1.0 with tag SUPPORT_LOW. -/
theorem C4_structure_score_witness :
    (LiquidityScore.calculate (1/2) 10 11 10 20 1).1
      = max (LiquidityScore.scoreSide (1/2) ((10 - 10) / 1))
          (LiquidityScore.scoreSide (1/2) ((20 - 11) / 1)) :=
  (C4_structure_score_policy 10 11 10 20 1 (by norm_num)).1

/-- C5: one step of update_session_status: inside the session window with
prior status CLOSED the status becomes OPEN and the bias is forced to
NEUTRAL; inside the window with prior status OPEN the bias is untouched;
outside the window the status becomes CLOSED and the bias is forced to
NEUTRAL. -/
theorem C5_session_update (hour : ℕ) (st : SessionState) :
    (7 ≤ hour → hour < 21 → st.current_session = .CLOSED →
        SessionManager.update_session_status hour st
          = { st with current_session := .OPEN, strategic_bias := .NEUTRAL })
    ∧ (7 ≤ hour → hour < 21 → st.current_session = .OPEN →
        SessionManager.update_session_status hour st
          = { st with current_session := .OPEN })
    ∧ (¬ (7 ≤ hour ∧ hour < 21) →
        SessionManager.update_session_status hour st
          = { st with current_session := .CLOSED, strategic_bias := .NEUTRAL }) := by
  refine ⟨fun h7 h21 hc => ?_, fun h7 h21 ho => ?_, fun h => ?_⟩
  · simp [SessionManager.update_session_status, h7, h21, hc]
  · simp [SessionManager.update_session_status, h7, h21, ho]
  · simp [SessionManager.update_session_status, h]

/-- C5 witness: the state (CLOSED, BULLISH) at hour 07 becomes
(OPEN, NEUTRAL), discarding the stale bias. -/
theorem C5_session_update_witness :
    SessionManager.update_session_status 7 ⟨.CLOSED, .BULLISH, ⟨1, 2⟩⟩
      = ⟨.OPEN, .NEUTRAL, ⟨1, 2⟩⟩ :=
  (C5_session_update 7 ⟨.CLOSED, .BULLISH, ⟨1, 2⟩⟩).1 (by norm_num) (by norm_num) rfl

/-- C6: update_strategic_view locks the bias and replaces the key levels
exactly when the daily and 4-hour trend tags agree on a non-NEUTRAL
direction; in every other case (disagreement, or agreement on NEUTRAL) the
whole state is unchanged — in particular daily BULLISH against 4-hour
BEARISH keeps a prior BEARISH bias. -/
theorem C6_strategic_view (daily h4 : Bias) (ks : KeyLevels) (st : SessionState) :
    (daily = h4 → daily ≠ .NEUTRAL →
        SessionManager.update_strategic_view daily h4 ks st
          = { st with strategic_bias := daily, key_levels := ks })
    ∧ (daily ≠ h4 ∨ daily = .NEUTRAL →
        SessionManager.update_strategic_view daily h4 ks st = st)
    ∧ (SessionManager.update_strategic_view .BULLISH .BEARISH ks
          { st with strategic_bias := .BEARISH }).strategic_bias
        = .BEARISH := by
  refine ⟨fun he hn => ?_, fun h => ?_, ?_⟩
  · subst he
    simp [SessionManager.update_strategic_view, hn]
  · rw [SessionManager.update_strategic_view, if_neg]
    rintro ⟨heq, hne⟩
    rcases h with h | h
    · exact h heq
    · exact hne h
  · simp [SessionManager.update_strategic_view]

/-- C6 witness: agreement on BULLISH from the initial state locks the bias
to BULLISH and installs the supplied key levels. -/
theorem C6_strategic_view_witness :
    SessionManager.update_strategic_view .BULLISH .BULLISH ⟨1, 2⟩
        SessionManager.initState
      = { SessionManager.initState with
            strategic_bias := .BULLISH, key_levels := ⟨1, 2⟩ } :=
  (C6_strategic_view .BULLISH .BULLISH ⟨1, 2⟩ SessionManager.initState).1
    rfl (by decide)

/-- C7: the spec-modelled risk scaler returns
round(base_risk * clamp(reference/current, 0.5, 2.0), 2) for a positive
current ATR, its output always lies in [0.25, 1.00], and a non-positive
current ATR returns exactly the unscaled base risk 0.50. -/
theorem C7_risk_scaler_bounds (reference_ATR current_ATR : ℚ) :
    (0 < current_ATR →
        RiskScaler.risk_pct reference_ATR current_ATR
          = round2 (RiskScaler.base_risk *
              npClip (reference_ATR / current_ATR) (1/2) 2))
    ∧ 1/4 ≤ RiskScaler.risk_pct reference_ATR current_ATR
    ∧ RiskScaler.risk_pct reference_ATR current_ATR ≤ 1
    ∧ (current_ATR ≤ 0 →
        RiskScaler.risk_pct reference_ATR current_ATR = RiskScaler.base_risk) := by
  by_cases hc : current_ATR ≤ 0
  · rw [RiskScaler.risk_pct, if_pos hc]
    exact ⟨fun h0 => absurd hc (not_le.mpr h0), by norm_num [RiskScaler.base_risk],
      by norm_num [RiskScaler.base_risk], fun _ => rfl⟩
  · have hq := RiskScaler.risk_pct.eq_def reference_ATR current_ATR
    rw [if_neg hc] at hq
    have hcl : 1/2 ≤ npClip (reference_ATR / current_ATR) (1/2) 2 ∧
        npClip (reference_ATR / current_ATR) (1/2) 2 ≤ 2 :=
      ⟨le_min (le_max_right _ _) (by norm_num), min_le_right _ _⟩
    have hx1 : (25 : ℤ) ≤ (100 : ℚ) * (RiskScaler.base_risk *
        npClip (reference_ATR / current_ATR) (1/2) 2) := by
      rw [RiskScaler.base_risk]
      push_cast
      nlinarith [hcl.1, hcl.2]
    have hx2 : (100 : ℚ) * (RiskScaler.base_risk *
        npClip (reference_ATR / current_ATR) (1/2) 2) ≤ ((100 : ℤ) : ℚ) := by
      rw [RiskScaler.base_risk]
      push_cast
      nlinarith [hcl.1, hcl.2]
    have hrb := round2_between hx1 hx2
    refine ⟨fun _ => hq, ?_, ?_, fun h0 => absurd h0 hc⟩
    · rw [hq]
      have := hrb.1
      push_cast at this
      linarith
    · rw [hq]
      have := hrb.2
      push_cast at this
      linarith

/-- C7 witness: at reference 1 and current 2 the scaler returns the rounded
clamped product, and at current ATR 0 it returns the base risk. -/
theorem C7_risk_scaler_witness :
    RiskScaler.risk_pct 1 2
      = round2 (RiskScaler.base_risk * npClip ((1 : ℚ) / 2) (1/2) 2)
    ∧ RiskScaler.risk_pct 4 0 = RiskScaler.base_risk :=
  ⟨(C7_risk_scaler_bounds 1 2).1 (by norm_num),
    (C7_risk_scaler_bounds 4 0).2.2.2 (by norm_num)⟩

/-- C8 counterexample: on a one-bar series the volatility extractor does
not return a neutral/zero score — its rolling average is undefined, and the
undefined (NaN) value propagates into the returned score. -/
theorem C8_volatility_nan_counterexample :
    VolatilityScore.calculate [1] = [none]
    ∧ VolatilityScore.calculate [1] ≠ [some 0] := by
  constructor
  · rfl
  · intro h
    rw [show VolatilityScore.calculate [1] = [none] from rfl] at h
    simp at h

/-- C8 amended: with fewer bars than the lookback requires, the fair-value
and momentum extractors return a zero score for every bar, but the
volatility extractor instead returns an undefined (NaN) value for every
bar, since its rolling average has no insufficiency guard. -/
theorem C8_insufficient_history (closeF closeM atrF atrV : List ℚ) :
    (closeF.length < 50 →
        FairValueScore.calculate closeF atrF = closeF.map fun _ => some 0)
    ∧ (closeM.length < 21 →
        MomentumScore.calculate closeM = closeM.map fun _ => some 0)
    ∧ (atrV.length < 50 →
        VolatilityScore.calculate atrV = atrV.map fun _ => none) := by
  refine ⟨fun hF => ?_, fun hM => ?_, fun hV => ?_⟩
  · have h50 : taEma 50 closeF = none := by simp [taEma, hF]
    simp [FairValueScore.calculate, h50]
  · have h21 : taEma 21 closeM = none := by simp [taEma, hM]
    cases h9 : taEma 9 closeM <;> simp [MomentumScore.calculate, h9, h21]
  · rw [VolatilityScore.calculate, rollingMean_short 50 atrV hV]
    exact zipWith_none_right _ (fun a => rfl) atrV

/-- C8 witness: the theorem applied at concrete two-bar series. -/
theorem C8_insufficient_history_witness :
    FairValueScore.calculate [1, 2] [1, 1] = [some 0, some 0]
    ∧ MomentumScore.calculate [1, 2] = [some 0, some 0]
    ∧ VolatilityScore.calculate [1, 2] = [none, none] :=
  ⟨(C8_insufficient_history [1, 2] [1, 2] [1, 1] [1, 2]).1 (by norm_num),
    (C8_insufficient_history [1, 2] [1, 2] [1, 1] [1, 2]).2.1 (by norm_num),
    (C8_insufficient_history [1, 2] [1, 2] [1, 1] [1, 2]).2.2 (by norm_num)⟩

/-- C9: run_cycle never reaches execute_trade against the locked bias: a
BUY decision under a BEARISH locked bias, or a SELL decision under a
BULLISH locked bias, is skipped. -/
theorem C9_bias_gate (sessionClosed paused : Bool) (spread max_spread : ℚ)
    (alphaScore : ℚ) (d : Decision) (bias : Bias)
    (h : (d.action = .BUY ∧ bias = .BEARISH)
        ∨ (d.action = .SELL ∧ bias = .BULLISH)) :
    TradingBot.executesTrade sessionClosed paused spread max_spread
      alphaScore d bias = false := by
  rcases h with ⟨ha, hb⟩ | ⟨ha, hb⟩ <;>
    simp [TradingBot.executesTrade, ha, hb]

/-- C9 witness: a BUY decision under a BEARISH bias is not executed, even
with the session open, the bot unpaused, a small spread, and a high alpha. -/
theorem C9_bias_gate_witness :
    TradingBot.executesTrade false false 1 3 1 ⟨.BUY, .NONE⟩ .BEARISH = false :=
  C9_bias_gate false false 1 3 1 ⟨.BUY, .NONE⟩ .BEARISH (Or.inl ⟨rfl, rfl⟩)

/-- C10: analyze_market is a total function of its fallible inputs: when
the model call fails or the JSON parse of its text fails, it returns the
fallback decision, whose action is HOLD and whose management action is
NONE — no exception propagates to the caller. -/
theorem C10_brain_fallback (response : Option String)
    (parse : String → Option Decision)
    (h : response = none ∨ ∃ t, response = some t ∧ parse t = none) :
    (GeminiBrain.analyze_market response parse).action = .HOLD
    ∧ (GeminiBrain.analyze_market response parse).management_action = .NONE := by
  rcases h with rfl | ⟨t, rfl, hp⟩
  · exact ⟨rfl, rfl⟩
  · simp [GeminiBrain.analyze_market, hp, GeminiBrain.fallbackDecision]

/-- C10 witness: a failed model call yields the HOLD / NONE fallback. -/
theorem C10_brain_fallback_witness :
    (GeminiBrain.analyze_market none fun _ => none).action = .HOLD
    ∧ (GeminiBrain.analyze_market none fun _ => none).management_action = .NONE :=
  C10_brain_fallback none (fun _ => none) (Or.inl rfl)
